import Mathlib

/-!
Verification of the identifier-resolution and relevance-scoring core of the
PDF-Bulk-Assessment repository.

The Python sources are shallowly embedded as executable Lean definitions:

* `src/doi_regex.py` — the regex pattern library is embedded by a small
  backtracking matcher over `List Char` whose alternatives are produced in
  Python's priority order (leftmost match, greedy quantifiers, left-biased
  alternation), so the first element of the parse list is exactly the match
  Python's `re` module would report.
* `src/docscraper.py` — `match_terms` (with `collections.Counter` and
  `most_common(3)`) and `calculate_likelihood`, with real numbers modelled
  by `ℚ` (all the arithmetic involved is exact).
* `src/sciscrape/wordscore.py` — `RelevanceCalculator`, with Python runtime
  errors (`ZeroDivisionError`, `ValueError`) made explicit in an `Except`
  result; `math.sqrt` of the (rational) variance is irrational in general,
  so a `Wordscore` record keeps the variance and the skewness numerator,
  from which `standard_deviation = sqrt variance` and
  `skewness = skewness_num / sqrt variance`; the definedness conditions of
  both are tracked exactly (`sqrt v` errors iff `v < 0`, and equals zero iff
  `v = 0`).
* `src/doifrompdf.py` — the `handlers` dictionary literal of `doi_from_pdf`
  is embedded together with Python's dict-literal semantics (a repeated key
  keeps its first position and its last value).
-/

/-- Python runtime errors that the embedded code can raise. -/
inductive PyErr where
  | attributeError
  | zeroDivisionError
  | valueError
deriving DecidableEq, Repr

instance instDecidableEqExcept {e a : Type} [DecidableEq e] [DecidableEq a] :
    DecidableEq (Except e a)
  | .error x, .error y =>
    if h : x = y then .isTrue (congrArg Except.error h)
    else .isFalse (fun hc => h (Except.error.inj hc))
  | .error _, .ok _ => .isFalse (fun hc => Except.noConfusion hc)
  | .ok _, .error _ => .isFalse (fun hc => Except.noConfusion hc)
  | .ok x, .ok y =>
    if h : x = y then .isTrue (congrArg Except.ok h)
    else .isFalse (fun hc => h (Except.ok.inj hc))

/-- Python `min(a, b)` (first argument preferred on ties). -/
def pymin (a b : ℚ) : ℚ := if a ≤ b then a else b

/-- Python `max(a, b)` (first argument preferred on ties). -/
def pymax (a b : ℚ) : ℚ := if b ≤ a then a else b

/-! ### A tiny backtracking regex engine

`RE α` is a matcher that, run on an input suffix, returns the list of all
possible parses `(value, rest)` in Python `re` priority order: greedy
quantifiers produce longer matches first, alternation is left-biased, and
sequencing explores the left component's alternatives in order.  The head of
the list is therefore the parse Python's backtracking engine commits to. -/
abbrev RE (α : Type) : Type := StateT (List Char) List α

/-- Run a matcher, returning all parses in priority order. -/
def reRun {α : Type} (p : RE α) (s : List Char) : List (α × List Char) := p s

/-- Match the exact literal `l`, returning the consumed characters. -/
def reLit (l : List Char) : RE (List Char) := fun s =>
  if l.isPrefixOf s then [(l, s.drop l.length)] else []

/-- Match between `lo` and `hi` (or unboundedly many, when `hi = none`)
characters of the class `f`, greedily: longest alternatives first.
Returns the consumed characters. -/
def reCls (f : Char → Bool) (lo : Nat) (hi : Option Nat) : RE (List Char) := fun s =>
  let m := (s.takeWhile f).length
  let top := match hi with
    | some h => min m h
    | none => m
  if top < lo then []
  else (List.range (top + 1 - lo)).map (fun i => (s.take (top - i), s.drop (top - i)))

/-- Left-biased alternation: all parses of `p`, then all parses of `q`. -/
def reAlt {α : Type} (p q : RE α) : RE α := fun s => p s ++ q s

/-- Greedy `(...)?` on a consumed-characters matcher: try the body first,
then the empty alternative. -/
def reOpt (p : RE (List Char)) : RE (List Char) := reAlt p (pure [])

/-- The `$` anchor without `re.MULTILINE`: matches at the end of the input,
or just before a final newline.  Consumes nothing. -/
def reEnd : RE (List Char) := fun s =>
  if s = [] ∨ s = ['\n'] then [([], s)] else []

/-- `re.search` / first `finditer` match: try each start position from the
left; at the first position where the pattern has a parse, return the
highest-priority parse's value. -/
def reSearch {α : Type} (p : RE α) : List Char → Option α
  | [] => (reRun p []).head?.map Prod.fst
  | c :: t =>
    match (reRun p (c :: t)).head? with
    | some a => some a.1
    | none => reSearch p t

/-- A pattern anchored at the start (`^...`, no `re.MULTILINE`): only a
match at position 0 counts. -/
def reAnchored {α : Type} (p : RE α) (s : List Char) : Option α :=
  (reRun p s).head?.map Prod.fst

/-! ### Character classes used by `src/doi_regex.py` -/

/-- Python `\s` (ASCII): space, tab, newline, carriage return, form feed,
vertical tab. -/
def isSpaceCh (c : Char) : Bool :=
  c == ' ' || c == '\t' || c == '\n' || c == '\r' || c == '\x0b' || c == '\x0c'

/-- `a-z`. -/
def isLowerAZ (c : Char) : Bool := 'a' ≤ c && c ≤ 'z'

/-- `[\d\:\.\-\/a-z]` — the DOI body class of `DOI_PATTERNS[0]` and `[1]`. -/
def clsDoiBody (c : Char) : Bool :=
  c.isDigit || c == ':' || c == '.' || c == '-' || c == '/' || isLowerAZ c

/-- `[\:\.\-\/a-z]` — the first body class of `DOI_PATTERNS[2]` (no digits). -/
def clsDoiBody3a (c : Char) : Bool :=
  c == ':' || c == '.' || c == '-' || c == '/' || isLowerAZ c

/-- `[\:\.\-\d]` — the second body class of `DOI_PATTERNS[2]`. -/
def clsDoiBody3b (c : Char) : Bool :=
  c == ':' || c == '.' || c == '-' || c.isDigit

/-- `[-._;()/:a-z0-9]` — the DOI suffix class of `DOI_PATTERNS[3]`, `[4]`
and of the canonical `DOI_REGEX`. -/
def clsDoiSuffix (c : Char) : Bool :=
  c == '-' || c == '.' || c == '_' || c == ';' || c == '(' || c == ')' ||
    c == '/' || c == ':' || isLowerAZ c || c.isDigit

/-- `[a-z0-9]` — the final character required of a canonical DOI suffix. -/
def clsLowerDigit (c : Char) : Bool := isLowerAZ c || c.isDigit

/-- `[\s\n\"<]` — the terminator class of `DOI_PATTERNS[0]`, `[1]`, `[3]`
and `ARXIV_PATTERNS[1]`. -/
def clsTerm (c : Char) : Bool := isSpaceCh c || c == '"' || c == '<'

/-- `[\s\na-z\"<]` — the terminator class of `DOI_PATTERNS[2]`. -/
def clsTerm3 (c : Char) : Bool := isSpaceCh c || isLowerAZ c || c == '"' || c == '<'

/-- `[\s\n\"<.]` — the trailing class of the canonical `DOI_REGEX`. -/
def clsTrailCanon (c : Char) : Bool := isSpaceCh c || c == '"' || c == '<' || c == '.'

/-- `[:\/\s]` — the marker separator class of `DOI_REGEX` / `ARXIV_REGEX`. -/
def clsMarkerSep (c : Char) : Bool := c == ':' || c == '/' || isSpaceCh c

/-- `[ -~]` — printable ASCII, used by `DOI_PATTERNS[3]`. -/
def isPrintable (c : Char) : Bool := ' ' ≤ c && c ≤ '~'

/-- `[\s\.\:]` — the optional separator after the `doi` marker in
`DOI_PATTERNS[0]`. -/
def clsDoiMarkerSep (c : Char) : Bool := isSpaceCh c || c == '.' || c == ':'

/-- `str.casefold`, restricted to the ASCII lowering that all inputs in this
development exercise. -/
def pyCasefold (s : List Char) : List Char := s.map Char.toLower

/-! ### The canonical parsing regexes (`DOI_REGEX`, `ARXIV_REGEX`) -/

/-- `DOI_REGEX`: `(?xm) (doi[:\/\s]{0,3})? 10 [.] (\d{2,9}) [:\-\/\s\]]
([\-._;()\/:a-z0-9]+[a-z0-9]) ([\s\n\"<.]|$)`.  The value is the pair of the
`registrant` and `suffix` named captures. -/
def doiCanon : RE (List Char × List Char) := do
  let _ ← reOpt (do
    let _ ← reLit ['d', 'o', 'i']
    let _ ← reCls clsMarkerSep 0 (some 3)
    pure [])
  let _ ← reLit ['1', '0']
  let _ ← reLit ['.']
  let registrant ← reCls Char.isDigit 2 (some 9)
  let _ ← reCls (fun c => c == ':' || c == '-' || c == '/' || isSpaceCh c || c == ']') 1 (some 1)
  let sufBody ← reCls clsDoiSuffix 1 none
  let sufLast ← reCls clsLowerDigit 1 (some 1)
  let _ ← reAlt (reCls clsTrailCanon 1 (some 1)) reEnd
  pure (registrant, sufBody ++ sufLast)

/-- `ARXIV_REGEX`: `(?x) (arxiv[:\/\s]{0,3})? (\d{4}\.\d+) (?:v\d+)?
(\.pdf)?$` (case-insensitive; inputs reach it casefolded).  The value is the
`identifier` capture together with whether the `trailing` group (`.pdf`)
participated in the match. -/
def arxivCanon : RE (List Char × Bool) := do
  let _ ← reOpt (do
    let _ ← reLit ['a', 'r', 'x', 'i', 'v']
    let _ ← reCls clsMarkerSep 0 (some 3)
    pure [])
  let d4 ← reCls Char.isDigit 4 (some 4)
  let _ ← reLit ['.']
  let dtail ← reCls Char.isDigit 1 none
  let _ ← reOpt (do
    let _ ← reLit ['v']
    let _ ← reCls Char.isDigit 1 none
    pure [])
  let trailing ← reAlt (do
      let _ ← reLit ['.', 'p', 'd', 'f']
      pure true)
    (pure false)
  let _ ← reEnd
  pure (d4 ++ '.' :: dtail, trailing)

/-- `format_doi`: `f"10.{meta['registrant']}/{meta['suffix']}"`. -/
def format_doi (registrant suffix : List Char) : String :=
  String.mk ('1' :: '0' :: '.' :: (registrant ++ '/' :: suffix))

/-- The arXiv branch of `standardize_identifier`:
`f"{meta['identifier']}{meta.get('trailing', '.pdf')}"`.  When the match
exists, `groupdict()` always contains the key `'trailing'` — with value
`None` when the optional group did not participate — so `.get` returns that
stored value and the f-string renders it as the four characters `None`;
the `.pdf` default is dead. -/
def format_arxiv (identifier : List Char) (trailingTaken : Bool) : String :=
  String.mk (identifier ++ (if trailingTaken then ['.', 'p', 'd', 'f'] else ['N', 'o', 'n', 'e']))

/-- `standardize_identifier(identifier, pattern_key)`.  The source computes
`next(regex.finditer(identifier.casefold()), {}).groupdict()`: when the
regex has no match, `next` returns the default `{}` — a `dict`, which has no
`groupdict` method — so the call raises `AttributeError`. -/
def standardize_identifier (identifier : String) (pattern_key : String) : Except PyErr String :=
  if pattern_key = "doi" then
    match reSearch doiCanon (pyCasefold identifier.data) with
    | none => .error .attributeError
    | some (registrant, suffix) => .ok (format_doi registrant suffix)
  else
    match reSearch arxivCanon (pyCasefold identifier.data) with
    | none => .error .attributeError
    | some (ident, trailing) => .ok (format_arxiv ident trailing)

/-! ### The ordered search-pattern lists (`DOI_PATTERNS`, `ARXIV_PATTERNS`)

`find_identifier` reads `group(1)` for DOI patterns and `group(0)` — the
whole matched substring — for arXiv patterns, so each DOI matcher below
yields its first capturing group and each arXiv matcher yields everything it
consumed. -/

/-- The capturing group `(10\.\d{4}[\d\:\.\-\/a-z]+)` shared by
`DOI_PATTERNS[0]` and `DOI_PATTERNS[1]`. -/
def doiGroup12 : RE (List Char) := do
  let a ← reLit ['1', '0', '.']
  let b ← reCls Char.isDigit 4 (some 4)
  let c ← reCls clsDoiBody 1 none
  pure (a ++ b ++ c)

/-- `(?:[\s\n\"<]|$)`. -/
def termOrEnd : RE (List Char) := reAlt (reCls clsTerm 1 (some 1)) reEnd

/-- `DOI_PATTERNS[0]`: `doi[\s\.\:]{0,2}(10\.\d{4}[\d\:\.\-\/a-z]+)(?:[\s\n\"<]|$)`. -/
def doiPat0 : RE (List Char) := do
  let _ ← reLit ['d', 'o', 'i']
  let _ ← reCls clsDoiMarkerSep 0 (some 2)
  let g ← doiGroup12
  let _ ← termOrEnd
  pure g

/-- `DOI_PATTERNS[1]`: `(10\.\d{4}[\d\:\.\-\/a-z]+)(?:[\s\n\"<]|$)`. -/
def doiPat1 : RE (List Char) := do
  let g ← doiGroup12
  let _ ← termOrEnd
  pure g

/-- `DOI_PATTERNS[2]`: `(10\.\d{4}[\:\.\-\/a-z]+[\:\.\-\d]+)(?:[\s\na-z\"<]|$)`. -/
def doiPat2 : RE (List Char) := do
  let a ← reLit ['1', '0', '.']
  let b ← reCls Char.isDigit 4 (some 4)
  let c ← reCls clsDoiBody3a 1 none
  let d ← reCls clsDoiBody3b 1 none
  let _ ← reAlt (reCls clsTerm3 1 (some 1)) reEnd
  pure (a ++ b ++ c ++ d)

/-- The capturing group `(10\.\d{4,9}/[-._;()/:a-z0-9]+)` shared by
`DOI_PATTERNS[3]` and `DOI_PATTERNS[4]`. -/
def doiGroup45 : RE (List Char) := do
  let a ← reLit ['1', '0', '.']
  let b ← reCls Char.isDigit 4 (some 9)
  let c ← reLit ['/']
  let d ← reCls clsDoiSuffix 1 none
  pure (a ++ b ++ c ++ d)

/-- `DOI_PATTERNS[3]`: `https?://[ -~]*doi[ -~]*/(10\.\d{4,9}/[-._;()/:a-z0-9]+)(?:[\s\n\"<]|$)`. -/
def doiPat3 : RE (List Char) := do
  let _ ← reLit ['h', 't', 't', 'p']
  let _ ← reOpt (reLit ['s'])
  let _ ← reLit [':', '/', '/']
  let _ ← reCls isPrintable 0 none
  let _ ← reLit ['d', 'o', 'i']
  let _ ← reCls isPrintable 0 none
  let _ ← reLit ['/']
  let g ← doiGroup45
  let _ ← termOrEnd
  pure g

/-- `DOI_PATTERNS[4]`: `^(10\.\d{4,9}/[-._;()/:a-z0-9]+)$` (anchored). -/
def doiPat4 : RE (List Char) := do
  let g ← doiGroup45
  let _ ← reEnd
  pure g

/-- `\d{4}\.\d+`, returning the consumed characters. -/
def arxivId : RE (List Char) := do
  let a ← reCls Char.isDigit 4 (some 4)
  let b ← reLit ['.']
  let c ← reCls Char.isDigit 1 none
  pure (a ++ b ++ c)

/-- `(?:v\d+)?`, returning the consumed characters. -/
def arxivVersion : RE (List Char) := reOpt (do
  let a ← reLit ['v']
  let b ← reCls Char.isDigit 1 none
  pure (a ++ b))

/-- `ARXIV_PATTERNS[0]` and `[3]`: `^(\d{4}\.\d+)(?:v\d+)?$` (anchored);
`group(0)` is the whole match. -/
def arxivPat03 : RE (List Char) := do
  let a ← arxivId
  let b ← arxivVersion
  let _ ← reEnd
  pure (a ++ b)

/-- `ARXIV_PATTERNS[1]`: `arxiv[\s]*\:[\s]*(\d{4}\.\d+)(?:v\d+)?(?:[\s\n\"<]|$)`;
`group(0)` includes the marker and any terminator character consumed. -/
def arxivPat1 : RE (List Char) := do
  let a ← reLit ['a', 'r', 'x', 'i', 'v']
  let b ← reCls isSpaceCh 0 none
  let c ← reLit [':']
  let d ← reCls isSpaceCh 0 none
  let e ← arxivId
  let f ← arxivVersion
  let g ← termOrEnd
  pure (a ++ b ++ c ++ d ++ e ++ f ++ g)

/-- `ARXIV_PATTERNS[2]`: `(\d{4}\.\d+)(?:v\d+)?(?:\.pdf)`; `group(0)`
includes the `.pdf`. -/
def arxivPat2 : RE (List Char) := do
  let a ← arxivId
  let b ← arxivVersion
  let c ← reLit ['.', 'p', 'd', 'f']
  pure (a ++ b ++ c)

/-- `DOI_PATTERNS`, each entry as `pattern.search` returning the group the
source reads (`group(1)`). -/
def DOI_PATTERNS : List (List Char → Option (List Char)) :=
  [reSearch doiPat0, reSearch doiPat1, reSearch doiPat2, reSearch doiPat3,
    reAnchored doiPat4]

/-- `ARXIV_PATTERNS`, each entry as `pattern.search` returning the group the
source reads (`group(0)`). -/
def ARXIV_PATTERNS : List (List Char → Option (List Char)) :=
  [reAnchored arxivPat03, reSearch arxivPat1, reSearch arxivPat2,
    reAnchored arxivPat03]

/-- `find_identifier(text, patterns, pattern_key)`: try each pattern in list
order; on the first match whose relevant group is non-empty, standardize the
captured substring and return the outcome (value or raised error); if no
pattern produces a non-empty group, return `""`. -/
def find_identifier (text : List Char)
    (patterns : List (List Char → Option (List Char))) (pattern_key : String) :
    Except PyErr String :=
  match patterns with
  | [] => .ok ""
  | p :: ps =>
    match p text with
    | none => find_identifier text ps pattern_key
    | some cap =>
      if cap = [] then find_identifier text ps pattern_key
      else standardize_identifier (String.mk cap) pattern_key

/-- `IDENTIFIER_PATTERNS`: insertion-ordered dict `{"doi": DOI_PATTERNS,
"arxiv": ARXIV_PATTERNS}`. -/
def IDENTIFIER_PATTERNS : List (String × List (List Char → Option (List Char))) :=
  [("doi", DOI_PATTERNS), ("arxiv", ARXIV_PATTERNS)]

/-- The loop body of `extract_identifier`: for each identifier kind in dict
order, run `find_identifier`; a falsy (empty) result moves on to the next
kind, anything else is returned; a raised error propagates. -/
def extract_loop (kinds : List (String × List (List Char → Option (List Char))))
    (text : List Char) : Except PyErr String :=
  match kinds with
  | [] => .ok ""
  | (key, pats) :: rest =>
    match find_identifier text pats key with
    | .error e => .error e
    | .ok s => if s = "" then extract_loop rest text else .ok s

/-- `extract_identifier(text)`: casefold, then try the kinds in
`IDENTIFIER_PATTERNS` order. -/
def extract_identifier (text : String) : Except PyErr String :=
  extract_loop IDENTIFIER_PATTERNS (pyCasefold text.data)

/-- The first pattern capture `find_identifier` would standardize: the first
pattern (in list order) whose match has a non-empty relevant group. -/
def firstCapture (patterns : List (List Char → Option (List Char)))
    (text : List Char) : Option (List Char) :=
  match patterns with
  | [] => none
  | p :: ps =>
    match p text with
    | none => firstCapture ps text
    | some cap => if cap = [] then firstCapture ps text else some cap

/-- The first DOI capture of the casefolded input. -/
def firstCaptureDoi (text : String) : Option (List Char) :=
  firstCapture DOI_PATTERNS (pyCasefold text.data)

/-- The first arXiv capture of the casefolded input. -/
def firstCaptureArxiv (text : String) : Option (List Char) :=
  firstCapture ARXIV_PATTERNS (pyCasefold text.data)

/-! ### `src/docscraper.py` — term matching and the weighted formula -/

/-- `FreqDistAndCount` from `src/docscraper.py`. -/
structure FreqDistAndCount where
  term_count : Nat
  frequency_dist : List (String × Nat)
deriving DecidableEq, Repr

/-- The distinct words of `l` in first-occurrence order — the key order of a
`collections.Counter` built by inserting the words of `l` left to right
(`seen` accumulates the keys already inserted). -/
def firstOccsAux : List String → List String → List String
  | [], _ => []
  | w :: ws, seen =>
    if w ∈ seen then firstOccsAux ws seen else w :: firstOccsAux ws (w :: seen)

/-- `collections.Counter(l)` as an association list: keys in first-occurrence
order, each mapped to its number of occurrences in `l`. -/
def counterList (l : List String) : List (String × Nat) :=
  (firstOccsAux l []).map (fun w => (w, l.count w))

/-- Remove the entry with the greatest count from an association list,
preferring the earliest entry on ties, and return it together with the
remaining entries in their original order. -/
def pickMax : List (String × Nat) → Option ((String × Nat) × List (String × Nat))
  | [] => none
  | x :: xs =>
    match pickMax xs with
    | none => some (x, xs)
    | some (y, ys) => if y.2 ≤ x.2 then some (x, xs) else some (y, x :: ys)

/-- `Counter.most_common(k)`: the `k` entries of greatest count, in
descending count order, ties broken by first-encountered order. -/
def most_common : Nat → List (String × Nat) → List (String × Nat)
  | 0, _ => []
  | k + 1, l =>
    match pickMax l with
    | none => []
    | some (x, rest) => x :: most_common k rest

/-- `match_terms(target, word_set)`: count the occurrences of every token
that is a member of the word set, keep the 3 most common, and sum exactly
their counts.  The Python set argument is modelled by a list used only for
membership tests. -/
def match_terms (target : List String) (word_set : List String) : FreqDistAndCount :=
  let matching_terms := most_common 3 (counterList (target.filter (fun w => decide (w ∈ word_set))))
  { term_count := (matching_terms.map Prod.snd).sum, frequency_dist := matching_terms }

/-- `calculate_likelihood(total_words, desired_matches, undesired_matches)`
from `src/docscraper.py`, with Python floats modelled by `ℚ` (all the
arithmetic here is exact). -/
def calculate_likelihood (total_words desired_matches undesired_matches : ℤ) : ℚ :=
  if total_words ≤ 0 ∨ desired_matches < 0 ∨ undesired_matches < 0 then 0
  else
    let other_words : ℤ := total_words - desired_matches - undesired_matches
    let desired_weight : ℚ := 1
    let undesired_weight : ℚ := -(1 / 4)
    let other_weight : ℚ := 1 / 2
    let likelihood_score : ℚ :=
      ((desired_matches : ℚ) * desired_weight + (undesired_matches : ℚ) * undesired_weight
        + (other_words : ℚ) * other_weight) / (total_words : ℚ)
    pymax 0 (pymin 1 likelihood_score)

/-! ### `src/sciscrape/wordscore.py` — the probabilistic model -/

/-- Python float division: raises `ZeroDivisionError` on a zero denominator. -/
def pydiv (a b : ℚ) : Except PyErr ℚ :=
  if b = 0 then .error .zeroDivisionError else .ok (a / b)

/-- Python `x ** k` for a float base and integer exponent: `0 ** k` with
`k < 0` raises `ZeroDivisionError`; any other base is closed under integer
powers. -/
def pypow (a : ℚ) (k : ℤ) : Except PyErr ℚ :=
  if a = 0 ∧ k < 0 then .error .zeroDivisionError else .ok (a ^ k)

/-- `math.comb(n, k)`: raises `ValueError` on a negative argument, and is
`0` for `k > n`. -/
def pycomb (n k : ℤ) : Except PyErr ℕ :=
  if n < 0 ∨ k < 0 then .error .valueError else .ok (Nat.choose n.toNat k.toNat)

/-- `RelevanceCalculator` from `src/sciscrape/wordscore.py` (a mutable
dataclass: `slots=True`, not frozen). -/
structure RelevanceCalculator where
  target_count : ℤ
  bycatch_count : ℤ
  total_length : ℤ
  implicature_score : Option ℚ
deriving DecidableEq, Repr

/-- The `Wordscore` produced by `RelevanceCalculator.__call__`, with exact
rational payload.  The source's float fields `standard_deviation` and
`skewness` are `sqrt variance` and `skewness_num / sqrt variance`; the
square root of a rational is irrational in general, so the record keeps
`variance` and the skewness numerator, which determine both exactly. -/
structure Wordscore where
  probability : ℚ
  expectation : ℚ
  variance : ℚ
  skewness_num : ℚ
deriving DecidableEq, Repr

/-- `RelevanceCalculator.get_margin(part, whole) = (part / whole) ** part`. -/
def RelevanceCalculator.get_margin (part whole : ℤ) : Except PyErr ℚ :=
  match pydiv (part : ℚ) (whole : ℚ) with
  | .error e => .error e
  | .ok r => pypow r part

/-- `RelevanceCalculator.bayes_theorem(prior, likelihood, margin)`. -/
def RelevanceCalculator.bayes_theorem (prior likelihood margin : ℚ) : Except PyErr ℚ :=
  pydiv (prior * likelihood) (prior * likelihood + margin)

/-- `RelevanceCalculator.calculate_wordscore(self, likelihood)`: note the
assignment `self.implicature_score = likelihood if self.implicature_score is
None else self.implicature_score`, which mutates the calculator; the method
returns the blended score together with the updated calculator. -/
def RelevanceCalculator.calculate_wordscore (self : RelevanceCalculator)
    (likelihood : ℚ) : ℚ × RelevanceCalculator :=
  let weight : ℚ := 85 / 100
  let imp : ℚ :=
    match self.implicature_score with
    | none => likelihood
    | some i => i
  let self' : RelevanceCalculator := { self with implicature_score := some imp }
  (likelihood * weight + imp * (1 - weight), self')

/-- `RelevanceCalculator.__call__`: the statements of the source in order,
with each fallible Python operation made explicit
(`neutral_part = total_length - target_count` appears inline).  `math.sqrt(variance)`
raises `ValueError` for `variance < 0`; the skewness division
`(failure_margin - target_probability) / standard_deviation` raises
`ZeroDivisionError` exactly when `variance = 0` (since
`sqrt variance = 0 ↔ variance = 0`).  The call returns the `Wordscore`
together with the (possibly mutated) calculator. -/
def RelevanceCalculator.call (self : RelevanceCalculator) :
    Except PyErr (Wordscore × RelevanceCalculator) :=
  match RelevanceCalculator.get_margin self.target_count self.total_length with
  | .error e => .error e
  | .ok success_margin =>
  match RelevanceCalculator.get_margin (self.total_length - self.target_count)
      self.total_length with
  | .error e => .error e
  | .ok failure_margin =>
  match pydiv (self.target_count : ℚ) (self.total_length : ℚ) with
  | .error e => .error e
  | .ok target_probability =>
  match pydiv (self.bycatch_count : ℚ) (self.total_length : ℚ) with
  | .error e => .error e
  | .ok bycatch_probability =>
  match pycomb self.total_length self.target_count with
  | .error e => .error e
  | .ok total_combinations =>
  let likelihood : ℚ := (total_combinations : ℚ) * success_margin * failure_margin
  let expectation : ℚ := (self.target_count : ℚ) * target_probability
  let variance : ℚ := expectation * (1 - target_probability)
  if variance < 0 then .error .valueError
  else if variance = 0 then .error .zeroDivisionError
  else
    let skewness_num : ℚ := failure_margin - target_probability
    match RelevanceCalculator.bayes_theorem target_probability likelihood failure_margin with
    | .error e => .error e
    | .ok positive_posterior =>
    match RelevanceCalculator.bayes_theorem bycatch_probability failure_margin likelihood with
    | .error e => .error e
    | .ok neg_posterior =>
    let unweighted_wordscore : ℚ := positive_posterior - neg_posterior
    let scored := self.calculate_wordscore unweighted_wordscore
    .ok ({ probability := scored.1, expectation := expectation,
           variance := variance, skewness_num := skewness_num }, scored.2)

/-- The calculator's `implicature_score` after a successful `__call__`
(`none` when the call raised). -/
def implicatureAfterCall (self : RelevanceCalculator) : Option (Option ℚ) :=
  match RelevanceCalculator.call self with
  | .error _ => none
  | .ok r => some r.2.implicature_score

/-! ### `src/doifrompdf.py` — the resolution cascade's handler table -/

/-- The handler functions used as keys of the `handlers` dict literal in
`doi_from_pdf`. -/
inductive StrategyKey where
  | find_identifier_in_metadata
  | find_identifier_in_pdf_info
  | find_identifier_in_text
  | find_identifier_by_googling
deriving DecidableEq, Repr

/-- The argument tuples used as values of the `handlers` dict literal. -/
inductive HandlerArgs where
  /-- `(metadata,)` -/
  | metadataOnly
  /-- `(title, IDENTIFIER_PATTERNS, True)` — the title search. -/
  | titleWithFlag
  /-- `(preprint, IDENTIFIER_PATTERNS)` — the full-text search. -/
  | preprintWithPatterns
  /-- `(preprint,)` — the web-search fallback. -/
  | preprintOnly
deriving DecidableEq, Repr

/-- Python dict insertion: a repeated key keeps its original position and
takes the new value; a new key is appended. -/
def pyDictInsert {K V : Type} [DecidableEq K] :
    List (K × V) → K → V → List (K × V)
  | [], k, v => [(k, v)]
  | e :: rest, k, v =>
    if e.1 = k then (k, v) :: rest else e :: pyDictInsert rest k v

/-- A Python dict literal: the pairs inserted left to right. -/
def pyDictOfList {K V : Type} [DecidableEq K] (pairs : List (K × V)) : List (K × V) :=
  pairs.foldl (fun d p => pyDictInsert d p.1 p.2) []

/-- The `handlers` dict literal of `doi_from_pdf`, exactly as written in the
source: five key-value pairs, of which the third and fourth share the key
`find_identifier_in_text`. -/
def doi_from_pdf_handlers : List (StrategyKey × HandlerArgs) :=
  pyDictOfList
    [(.find_identifier_in_metadata, .metadataOnly),
     (.find_identifier_in_pdf_info, .metadataOnly),
     (.find_identifier_in_text, .titleWithFlag),
     (.find_identifier_in_text, .preprintWithPatterns),
     (.find_identifier_by_googling, .preprintOnly)]

/-- The cascade body of `doi_from_pdf`:
`next(filter(None, (handler(*args) for handler, args in handlers.items())), None)`
— the first non-`None` strategy result, given the outcome of each strategy. -/
def doi_from_pdf_cascade {R : Type} (run : StrategyKey → HandlerArgs → Option R) : Option R :=
  (doi_from_pdf_handlers.filterMap (fun e => run e.1 e.2)).head?

/-! ## Sanity checks of the embedding on concrete inputs -/

example : standardize_identifier "doi:10.1234/Test.ABC-2021" "doi" = .ok "10.1234/test.abc-2021" := by rfl
example : standardize_identifier "2101.12345v2.pdf" "arxiv" = .ok "2101.12345.pdf" := by rfl
example : standardize_identifier "2101.12345" "arxiv" = .ok "2101.12345None" := by rfl
example : standardize_identifier "2101.12345None" "arxiv" = .error .attributeError := by rfl
example : standardize_identifier "abc" "doi" = .error .attributeError := by rfl

example : extract_identifier "Available at doi:10.1234/Test.ABC-2021" = .ok "10.1234/test.abc-2021" := by rfl
example : extract_identifier "arxiv:2101.12345v2.pdf" = .ok "2101.12345.pdf" := by rfl
example : extract_identifier "nothing here" = .ok "" := by rfl
example : firstCaptureDoi "see doi:10.1234/ab" = some "10.1234/ab".data := by rfl
example : firstCaptureArxiv "2101.12345v2.pdf" = some "2101.12345v2.pdf".data := by rfl

example : calculate_likelihood 4 0 0 = 1 / 2 := by with_unfolding_all rfl
example : calculate_likelihood 0 0 0 = 0 := by with_unfolding_all rfl

example : RelevanceCalculator.get_margin 2 4 = .ok (1 / 4) := by with_unfolding_all rfl
example : RelevanceCalculator.call ⟨0, 0, 3, none⟩ = .error .zeroDivisionError := by with_unfolding_all rfl

/-! ## Helper lemmas -/

theorem pymin_eq_min (a b : ℚ) : pymin a b = min a b := by
  unfold pymin
  split
  next h => exact (min_eq_left h).symm
  next h => exact (min_eq_right (le_of_not_le h)).symm

theorem pymax_eq_max (a b : ℚ) : pymax a b = max a b := by
  unfold pymax
  split
  next h => exact (max_eq_left h).symm
  next h => exact (max_eq_right (le_of_not_le h)).symm

theorem calculate_likelihood_nonneg (t d u : ℤ) : 0 ≤ calculate_likelihood t d u := by
  unfold calculate_likelihood
  split
  · exact le_refl 0
  · rw [pymax_eq_max]
    exact le_max_left 0 _

theorem calculate_likelihood_le_one (t d u : ℤ) : calculate_likelihood t d u ≤ 1 := by
  unfold calculate_likelihood
  split
  · exact zero_le_one
  · rw [pymax_eq_max, pymin_eq_min]
    exact max_le zero_le_one (min_le_left 1 _)

/-! ## Claims -/

/-- Claim C1 (code_bug evidence).  The `handlers` dict literal of
`doi_from_pdf` is written with five key-value pairs, but the key
`find_identifier_in_text` occurs twice, so under Python dict semantics the
title-search entry `(title, IDENTIFIER_PATTERNS, True)` is silently
overwritten: the resulting cascade has exactly four strategies — metadata
lookup, metadata-value scan, full-text search, web-search fallback — and no
strategy ever receives the title-search arguments.  The spec's five-step
cascade (with title search and full-text search as two distinct ordered
steps) is therefore not what the code builds. -/
theorem doi_from_pdf_handlers_collapse :
    doi_from_pdf_handlers =
      [(.find_identifier_in_metadata, .metadataOnly),
       (.find_identifier_in_pdf_info, .metadataOnly),
       (.find_identifier_in_text, .preprintWithPatterns),
       (.find_identifier_by_googling, .preprintOnly)]
    ∧ doi_from_pdf_handlers.length = 4
    ∧ ∀ e ∈ doi_from_pdf_handlers, e.2 ≠ HandlerArgs.titleWithFlag := by
  refine ⟨by decide, by decide, by decide⟩

/-- Claim C2 (code_bug evidence).  `standardize_identifier` is claimed never
to raise and to return `""` when the canonical regex finds no match; in the
source, a missing match makes `next(regex.finditer(...), {})` return the
default `{}`, and `{}.groupdict()` raises `AttributeError`.  On an input
with no identifier the function raises for both kinds; on a matching input
it returns the formatted identifier. -/
theorem standardize_identifier_raises_on_no_match :
    standardize_identifier "The quick brown fox" "doi" = .error .attributeError
    ∧ standardize_identifier "The quick brown fox" "arxiv" = .error .attributeError
    ∧ standardize_identifier "doi:10.1234/ab" "doi" = .ok "10.1234/ab" := by
  refine ⟨by rfl, by rfl, by rfl⟩

/-- Claim C3 (code_bug evidence).  Normalization is not idempotent: for the
valid bare arXiv identifier `"2101.12345"`, the `trailing` group does not
participate, `groupdict()` stores `None` under the key `'trailing'`, and
`meta.get("trailing", ".pdf")` returns that stored `None` — so the first
normalization yields `"2101.12345None"`, and normalizing that output does
not return it unchanged: the canonical regex no longer matches and the
function raises `AttributeError`. -/
theorem standardize_identifier_not_idempotent :
    standardize_identifier "2101.12345" "arxiv" = .ok "2101.12345None"
    ∧ standardize_identifier "2101.12345None" "arxiv" = .error .attributeError := by
  refine ⟨by rfl, by rfl⟩

/-- Claim C5.  `calculate_likelihood` returns `0` on degenerate inputs
(`total_words ≤ 0` or a negative match count); otherwise it is the weighted
sum `(desired*1 + undesired*(-1/4) + (total - desired - undesired)*(1/2)) /
total` clamped to `[0, 1]`; the result always lies in `[0, 1]`; and a
document with zero target and bycatch hits scores `1/2`. -/
theorem calculate_likelihood_spec (t d u : ℤ) :
    ((t ≤ 0 ∨ d < 0 ∨ u < 0) → calculate_likelihood t d u = 0)
    ∧ (0 < t → 0 ≤ d → 0 ≤ u →
        calculate_likelihood t d u =
          max 0 (min 1 (((d : ℚ) * 1 + (u : ℚ) * (-(1 / 4))
            + ((t : ℚ) - (d : ℚ) - (u : ℚ)) * (1 / 2)) / (t : ℚ))))
    ∧ 0 ≤ calculate_likelihood t d u
    ∧ calculate_likelihood t d u ≤ 1
    ∧ (0 < t → calculate_likelihood t 0 0 = 1 / 2) := by
  refine ⟨?_, ?_, calculate_likelihood_nonneg t d u, calculate_likelihood_le_one t d u, ?_⟩
  · intro h
    unfold calculate_likelihood
    exact if_pos h
  · intro ht hd hu
    unfold calculate_likelihood
    rw [if_neg (by push_neg; exact ⟨ht, hd, hu⟩), pymax_eq_max, pymin_eq_min]
    push_cast
    ring_nf
  · intro ht
    unfold calculate_likelihood
    rw [if_neg (by push_neg; exact ⟨ht, le_refl 0, le_refl 0⟩), pymax_eq_max, pymin_eq_min]
    have htQ : (t : ℚ) ≠ 0 := Int.cast_ne_zero.mpr ht.ne'
    have : ((0 : ℤ) : ℚ) * 1 + ((0 : ℤ) : ℚ) * (-(1 / 4)) + ((t - 0 - 0 : ℤ) : ℚ) * (1 / 2) = (t : ℚ) * (1 / 2) := by
      push_cast
      ring
    rw [this, mul_comm, mul_div_assoc, div_self htQ, mul_one]
    norm_num

/-- Witness for C5: at `total_words = 3`, `desired = undesired = 0`, the
degeneracy guard does not fire and the score is exactly `1/2`. -/
theorem calculate_likelihood_spec_witness :
    (0 : ℤ) < 3 ∧ calculate_likelihood 3 0 0 = 1 / 2 :=
  ⟨by decide, (calculate_likelihood_spec 3 0 0).2.2.2.2 (by decide)⟩

/-- Claim C6.  For fixed `total_words > 0` and fixed non-negative
`undesired_matches`, the weighted relevance score is monotone non-decreasing
in `desired_matches`. -/
theorem calculate_likelihood_mono_desired (t u d1 d2 : ℤ)
    (ht : 0 < t) (hu : 0 ≤ u) (hd : d1 ≤ d2) :
    calculate_likelihood t d1 u ≤ calculate_likelihood t d2 u := by
  by_cases hd1 : d1 < 0
  · have : calculate_likelihood t d1 u = 0 := by
      unfold calculate_likelihood
      exact if_pos (Or.inr (Or.inl hd1))
    rw [this]
    exact calculate_likelihood_nonneg t d2 u
  · push_neg at hd1
    have hd2 : 0 ≤ d2 := le_trans hd1 hd
    have htQ : (0 : ℚ) < (t : ℚ) := by exact_mod_cast ht
    unfold calculate_likelihood
    rw [if_neg (by push_neg; exact ⟨ht, hd1, hu⟩), if_neg (by push_neg; exact ⟨ht, hd2, hu⟩),
      pymax_eq_max, pymax_eq_max, pymin_eq_min, pymin_eq_min]
    refine max_le_max (le_refl 0) (min_le_min (le_refl 1) ?_)
    rw [div_le_div_iff_of_pos_right htQ]
    have hdQ : (d1 : ℚ) ≤ (d2 : ℚ) := by exact_mod_cast hd
    push_cast
    linarith

/-- Witness for C6: with 4 words and no bycatch, one target hit scores no
more than two target hits. -/
theorem calculate_likelihood_mono_desired_witness :
    calculate_likelihood 4 1 0 ≤ calculate_likelihood 4 2 0 :=
  calculate_likelihood_mono_desired 4 0 1 2 (by decide) (by decide) (by decide)

theorem firstOccsAux_subset (l : List String) :
    ∀ seen w, w ∈ firstOccsAux l seen → w ∈ l := by
  induction l with
  | nil => intro seen w h; simp [firstOccsAux] at h
  | cons a as ih =>
    intro seen w h
    unfold firstOccsAux at h
    split at h
    · exact List.mem_cons_of_mem a (ih seen w h)
    · rcases List.mem_cons.mp h with h' | h'
      · exact h' ▸ List.mem_cons_self a as
      · exact List.mem_cons_of_mem a (ih (a :: seen) w h')

theorem counterList_mem (l : List String) (p : String × Nat) (h : p ∈ counterList l) :
    p.1 ∈ l ∧ p.2 = l.count p.1 := by
  unfold counterList at h
  obtain ⟨w, hw, rfl⟩ := List.mem_map.mp h
  exact ⟨firstOccsAux_subset l [] w hw, rfl⟩

theorem pickMax_mem (l : List (String × Nat)) (x : String × Nat)
    (r : List (String × Nat)) (h : pickMax l = some (x, r)) :
    x ∈ l ∧ ∀ y ∈ r, y ∈ l := by
  induction l generalizing x r with
  | nil => simp [pickMax] at h
  | cons a as ih =>
    unfold pickMax at h
    split at h
    · injection h with h'
      have h1 : a = x := congrArg Prod.fst h'
      have h2 : as = r := congrArg Prod.snd h'
      subst h1
      subst h2
      exact ⟨List.mem_cons_self a as, fun y hy => List.mem_cons_of_mem a hy⟩
    next y0 ys heq =>
      split at h
      · injection h with h'
        have h1 : a = x := congrArg Prod.fst h'
        have h2 : as = r := congrArg Prod.snd h'
        subst h1
        subst h2
        exact ⟨List.mem_cons_self a as, fun y hy => List.mem_cons_of_mem a hy⟩
      · injection h with h'
        have h1 : y0 = x := congrArg Prod.fst h'
        have h2 : a :: ys = r := congrArg Prod.snd h'
        subst h1
        subst h2
        obtain ⟨hy0, hys⟩ := ih y0 ys heq
        refine ⟨List.mem_cons_of_mem a hy0, ?_⟩
        intro y hy
        rcases List.mem_cons.mp hy with h' | h'
        · exact h' ▸ List.mem_cons_self a as
        · exact List.mem_cons_of_mem a (hys y h')

theorem most_common_subset (k : Nat) (l : List (String × Nat)) :
    ∀ p ∈ most_common k l, p ∈ l := by
  induction k generalizing l with
  | zero => intro p hp; simp [most_common] at hp
  | succ k ih =>
    intro p hp
    unfold most_common at hp
    cases hm : pickMax l with
    | none => rw [hm] at hp; simp at hp
    | some q =>
      obtain ⟨x, rest⟩ := q
      rw [hm] at hp
      obtain ⟨hx, hrest⟩ := pickMax_mem l x rest hm
      rcases List.mem_cons.mp hp with h' | h'
      · exact h' ▸ hx
      · exact hrest p (ih rest p h')

theorem most_common_length (k : Nat) (l : List (String × Nat)) :
    (most_common k l).length ≤ k := by
  induction k generalizing l with
  | zero => simp [most_common]
  | succ k ih =>
    unfold most_common
    cases pickMax l with
    | none => simp
    | some q => simpa using ih q.2

/-- Claim C7.  `match_terms` counts the occurrences of tokens belonging to
the reference set, keeps at most the 3 most frequent matching words, and
its `term_count` is the sum of the counts of exactly those kept words (every
kept word's count is its true occurrence count in the token list, so words
beyond the top 3 contribute nothing); on the spec's example it produces top
terms `[("a",3),("f",3),("b",1)]` with `term_count = 7`. -/
theorem match_terms_spec (target word_set : List String) :
    (match_terms target word_set).term_count
        = (((match_terms target word_set).frequency_dist).map Prod.snd).sum
    ∧ (match_terms target word_set).frequency_dist.length ≤ 3
    ∧ (∀ p ∈ (match_terms target word_set).frequency_dist,
        p.1 ∈ word_set ∧ p.2 = target.count p.1)
    ∧ match_terms ["a", "a", "b", "c", "d", "d", "d", "d", "c", "a", "f", "f", "f", "g", "d"]
        ["a", "b", "f"]
        = ⟨7, [("a", 3), ("f", 3), ("b", 1)]⟩ := by
  refine ⟨rfl, most_common_length 3 _, ?_, by decide⟩
  intro p hp
  have hp' : p ∈ counterList (target.filter (fun w => decide (w ∈ word_set))) :=
    most_common_subset 3 _ p hp
  obtain ⟨hmem, hcount⟩ := counterList_mem _ p hp'
  obtain ⟨hmemT, hdec⟩ := List.mem_filter.mp hmem
  refine ⟨of_decide_eq_true hdec, ?_⟩
  rw [hcount]
  exact List.count_filter hdec

/-- Witness for C7: on the spec's example the kept entry `("a", 3)` is a
word of the reference set whose count is its true occurrence count. -/
theorem match_terms_spec_witness :
    ("a", 3) ∈ (match_terms
        ["a", "a", "b", "c", "d", "d", "d", "d", "c", "a", "f", "f", "f", "g", "d"]
        ["a", "b", "f"]).frequency_dist
    ∧ "a" ∈ ["a", "b", "f"]
    ∧ 3 = ["a", "a", "b", "c", "d", "d", "d", "d", "c", "a", "f", "f", "f", "g", "d"].count "a" :=
  ⟨by decide,
    ((match_terms_spec ["a", "a", "b", "c", "d", "d", "d", "d", "c", "a", "f", "f", "f", "g", "d"]
      ["a", "b", "f"]).2.2.1 ("a", 3) (by decide)).1,
    ((match_terms_spec ["a", "a", "b", "c", "d", "d", "d", "d", "c", "a", "f", "f", "f", "g", "d"]
      ["a", "b", "f"]).2.2.1 ("a", 3) (by decide)).2⟩

theorem standardize_identifier_ne_empty (s key r : String)
    (h : standardize_identifier s key = .ok r) : r ≠ "" := by
  unfold standardize_identifier at h
  split at h
  · cases hm : reSearch doiCanon (pyCasefold s.data) with
    | none => rw [hm] at h; exact absurd h (by simp)
    | some q =>
      obtain ⟨reg, suf⟩ := q
      rw [hm] at h
      injection h with h'
      intro hc
      rw [hc] at h'
      have := congrArg String.data h'
      simp [format_doi] at this
  · cases hm : reSearch arxivCanon (pyCasefold s.data) with
    | none => rw [hm] at h; exact absurd h (by simp)
    | some q =>
      obtain ⟨ident, trailing⟩ := q
      rw [hm] at h
      injection h with h'
      intro hc
      rw [hc] at h'
      have hdata := congrArg String.data h'
      simp only [format_arxiv] at hdata
      have : ident ++ (if trailing then ['.', 'p', 'd', 'f'] else ['N', 'o', 'n', 'e']) = ([] : List Char) := hdata
      rcases List.append_eq_nil.mp this with ⟨-, hnil⟩
      cases trailing <;> simp at hnil

theorem find_identifier_eq (text : List Char)
    (patterns : List (List Char → Option (List Char))) (key : String) :
    find_identifier text patterns key =
      match firstCapture patterns text with
      | none => .ok ""
      | some c => standardize_identifier (String.mk c) key := by
  induction patterns with
  | nil => rfl
  | cons p ps ih =>
    unfold find_identifier firstCapture
    cases p text with
    | none => exact ih
    | some cap =>
      by_cases hc : cap = []
      · simp only [hc, if_pos rfl]
        exact ih
      · simp only [if_neg hc]

/-- Claim C4.  `extract_identifier` tries DOI before arXiv, and within each
kind its patterns in list order; the first pattern whose relevant group is
non-empty wins: its capture is passed through `standardize_identifier` and
that outcome is the result of the whole extraction (so no later pattern of
either kind is consulted); when no pattern of either kind produces a
capture, the result is `""`. -/
theorem extract_identifier_first_capture_wins (text : String) :
    (firstCaptureDoi text = none → firstCaptureArxiv text = none →
      extract_identifier text = .ok "")
    ∧ (∀ c, firstCaptureDoi text = some c →
        extract_identifier text = standardize_identifier (String.mk c) "doi")
    ∧ (firstCaptureDoi text = none → ∀ c, firstCaptureArxiv text = some c →
        extract_identifier text = standardize_identifier (String.mk c) "arxiv") := by
  unfold firstCaptureDoi firstCaptureArxiv
  refine ⟨?_, ?_, ?_⟩
  · intro hd ha
    unfold extract_identifier IDENTIFIER_PATTERNS extract_loop
    rw [find_identifier_eq, hd]
    show extract_loop [("arxiv", ARXIV_PATTERNS)] (pyCasefold text.data) = .ok ""
    unfold extract_loop
    rw [find_identifier_eq, ha]
    rfl
  · intro c hd
    unfold extract_identifier IDENTIFIER_PATTERNS extract_loop
    rw [find_identifier_eq, hd]
    cases hs : standardize_identifier (String.mk c) "doi" with
    | error e => simp only [hs]
    | ok s =>
      have hne : s ≠ "" := standardize_identifier_ne_empty (String.mk c) "doi" s hs
      simp only [hs, if_neg hne]
  · intro hd c ha
    unfold extract_identifier IDENTIFIER_PATTERNS extract_loop
    rw [find_identifier_eq, hd]
    show extract_loop [("arxiv", ARXIV_PATTERNS)] (pyCasefold text.data)
      = standardize_identifier (String.mk c) "arxiv"
    unfold extract_loop
    rw [find_identifier_eq, ha]
    cases hs : standardize_identifier (String.mk c) "arxiv" with
    | error e => simp only [hs]
    | ok s =>
      have hne : s ≠ "" := standardize_identifier_ne_empty (String.mk c) "arxiv" s hs
      simp only [hs, if_neg hne]

/-- Witness for C4: on the spec's DOI example the first DOI capture is
`10.1234/test.abc-2021` and the extraction returns exactly its
standardization. -/
theorem extract_identifier_first_capture_wins_witness :
    firstCaptureDoi "Available at doi:10.1234/Test.ABC-2021" = some "10.1234/test.abc-2021".data
    ∧ extract_identifier "Available at doi:10.1234/Test.ABC-2021"
        = standardize_identifier (String.mk "10.1234/test.abc-2021".data) "doi"
    ∧ standardize_identifier (String.mk "10.1234/test.abc-2021".data) "doi"
        = .ok "10.1234/test.abc-2021" :=
  ⟨by rfl,
    (extract_identifier_first_capture_wins "Available at doi:10.1234/Test.ABC-2021").2.1
      "10.1234/test.abc-2021".data (by rfl),
    by rfl⟩

/-- Claim C8.  The final probability of the probabilistic model is
`unweighted * 0.85 + implicature_score * 0.15` when an implicature score is
supplied, and exactly the unweighted posterior when none is (the missing
prior is replaced by the unweighted value itself, collapsing the blend);
`0.6` with implicature `0.9` yields `0.645`. -/
theorem calculate_wordscore_blend (c : RelevanceCalculator) (u i : ℚ) :
    (RelevanceCalculator.calculate_wordscore { c with implicature_score := some i } u).1
        = u * (85 / 100) + i * (15 / 100)
    ∧ (RelevanceCalculator.calculate_wordscore { c with implicature_score := none } u).1 = u
    ∧ (RelevanceCalculator.calculate_wordscore
        { c with implicature_score := some (9 / 10) } (6 / 10)).1 = 645 / 1000 := by
  refine ⟨?_, ?_, ?_⟩
  · unfold RelevanceCalculator.calculate_wordscore
    norm_num
  · unfold RelevanceCalculator.calculate_wordscore
    ring_nf
  · unfold RelevanceCalculator.calculate_wordscore
    norm_num

/-- Counterexample for claim C9: computing a `Wordscore` does not leave the
calculator's fields unchanged.  For the calculator `⟨2, 1, 4, none⟩` the
call succeeds, and afterwards `implicature_score` is `some (2/7)` — the
unweighted posterior written back by `calculate_wordscore` — no longer the
original `none`. -/
theorem wordscore_mutates_implicature_counterexample :
    implicatureAfterCall ⟨2, 1, 4, none⟩ = some (some (2 / 7))
    ∧ (some (some (2 / 7)) : Option (Option ℚ)) ≠ some none := by
  refine ⟨by with_unfolding_all rfl, by simp⟩

/-- Claim C9 (amended).  A successful `RelevanceCalculator.__call__` leaves
`target_count`, `bycatch_count` and `total_length` unchanged; when an
implicature score was supplied the whole calculator is unchanged; the one
exception is `implicature_score` itself, which is always `some` afterwards
(`calculate_wordscore` writes the unweighted score into it when it was
`None`). -/
theorem calculate_wordscore_state (c : RelevanceCalculator) (u : ℚ) :
    (RelevanceCalculator.calculate_wordscore c u).2.target_count = c.target_count
    ∧ (RelevanceCalculator.calculate_wordscore c u).2.bycatch_count = c.bycatch_count
    ∧ (RelevanceCalculator.calculate_wordscore c u).2.total_length = c.total_length
    ∧ (∀ i, c.implicature_score = some i → (RelevanceCalculator.calculate_wordscore c u).2 = c)
    ∧ ∃ v, (RelevanceCalculator.calculate_wordscore c u).2.implicature_score = some v := by
  obtain ⟨tc, bc, tl, imp⟩ := c
  unfold RelevanceCalculator.calculate_wordscore
  refine ⟨rfl, rfl, rfl, ?_, ?_⟩
  · intro i hi
    have hi' : imp = some i := hi
    subst hi'
    rfl
  · cases imp with
    | none => exact ⟨u, rfl⟩
    | some i => exact ⟨i, rfl⟩

theorem call_preserves_fields_except_implicature (c : RelevanceCalculator)
    (w : Wordscore) (c' : RelevanceCalculator)
    (h : RelevanceCalculator.call c = .ok (w, c')) :
    c'.target_count = c.target_count
    ∧ c'.bycatch_count = c.bycatch_count
    ∧ c'.total_length = c.total_length
    ∧ (∀ i, c.implicature_score = some i → c' = c)
    ∧ ∃ v, c'.implicature_score = some v := by
  unfold RelevanceCalculator.call at h
  simp only [] at h
  repeat' split at h
  any_goals exact Except.noConfusion h
  injection h with h'
  rw [Prod.mk.injEq] at h'
  obtain ⟨hw, hc'⟩ := h'
  rw [← hc']
  exact calculate_wordscore_state c _

/-- Witness for C9 (amended): a concrete call with a supplied implicature
score returns the calculator unchanged. -/
theorem call_preserves_fields_except_implicature_witness :
    ∃ w c', RelevanceCalculator.call ⟨2, 1, 4, some (1 / 2)⟩ = .ok (w, c')
      ∧ c' = ⟨2, 1, 4, some (1 / 2)⟩ := by
  have h : RelevanceCalculator.call ⟨2, 1, 4, some (1 / 2)⟩
      = .ok (⟨89 / 280, 1, 1 / 2, -(1 / 4)⟩, ⟨2, 1, 4, some (1 / 2)⟩) := by
    with_unfolding_all rfl
  exact ⟨_, _, h, (call_preserves_fields_except_implicature _ _ _ h).2.2.2.1 (1 / 2) rfl⟩

theorem call_target_zero (c : RelevanceCalculator) (hn : 0 < c.total_length)
    (ht : c.target_count = 0) :
    RelevanceCalculator.call c = .error .zeroDivisionError := by
  obtain ⟨t, b, n, imp⟩ := c
  have ht' : t = 0 := ht
  have hn' : 0 < n := hn
  subst ht'
  have hnQ : ((n : ℤ) : ℚ) ≠ 0 := Int.cast_ne_zero.mpr hn'.ne'
  have h1 : RelevanceCalculator.get_margin 0 n = .ok 1 := by
    simp [RelevanceCalculator.get_margin, pydiv, pypow, hnQ]
  have h2 : RelevanceCalculator.get_margin n n = .ok 1 := by
    simp [RelevanceCalculator.get_margin, pydiv, pypow, hnQ, div_self]
  have h3 : pydiv ((0 : ℤ) : ℚ) ((n : ℤ) : ℚ) = .ok 0 := by
    simp [pydiv, hnQ]
  have h4 : pydiv ((b : ℤ) : ℚ) ((n : ℤ) : ℚ) = .ok ((b : ℚ) / (n : ℚ)) := by
    simp [pydiv, hnQ]
  have h5 : pycomb n 0 = .ok (Nat.choose n.toNat 0) := by
    simp [pycomb, not_lt.mpr hn'.le]
  simp only [RelevanceCalculator.call, sub_zero, h1, h2, h3, h4, h5]
  norm_num

theorem call_target_eq_total (c : RelevanceCalculator) (hn : 0 < c.total_length)
    (ht : c.target_count = c.total_length) :
    RelevanceCalculator.call c = .error .zeroDivisionError := by
  obtain ⟨t, b, n, imp⟩ := c
  have ht' : t = n := ht
  have hn' : 0 < n := hn
  subst ht'
  have hnQ : ((t : ℤ) : ℚ) ≠ 0 := Int.cast_ne_zero.mpr hn'.ne'
  have h1 : RelevanceCalculator.get_margin t t = .ok 1 := by
    simp [RelevanceCalculator.get_margin, pydiv, pypow, hnQ, div_self]
  have h2 : RelevanceCalculator.get_margin 0 t = .ok 1 := by
    simp [RelevanceCalculator.get_margin, pydiv, pypow, hnQ]
  have h3 : pydiv ((t : ℤ) : ℚ) ((t : ℤ) : ℚ) = .ok 1 := by
    simp [pydiv, hnQ, div_self]
  have h4 : pydiv ((b : ℤ) : ℚ) ((t : ℤ) : ℚ) = .ok ((b : ℚ) / (t : ℚ)) := by
    simp [pydiv, hnQ]
  have h5 : pycomb t t = .ok (Nat.choose t.toNat t.toNat) := by
    simp [pycomb, not_lt.mpr hn'.le]
  simp only [RelevanceCalculator.call, sub_self, h1, h2, h3, h4, h5]
  norm_num

theorem call_target_neg (c : RelevanceCalculator) (hn : 0 < c.total_length)
    (ht : c.target_count < 0) :
    RelevanceCalculator.call c = .error .valueError := by
  obtain ⟨t, b, n, imp⟩ := c
  have ht' : t < 0 := ht
  have hn' : 0 < n := hn
  have hnQ : ((n : ℤ) : ℚ) ≠ 0 := Int.cast_ne_zero.mpr hn'.ne'
  have htQ : ((t : ℤ) : ℚ) ≠ 0 := Int.cast_ne_zero.mpr ht'.ne
  have h1 : RelevanceCalculator.get_margin t n = .ok (((t : ℚ) / (n : ℚ)) ^ t) := by
    simp only [RelevanceCalculator.get_margin, pydiv, pypow, if_neg hnQ]
    rw [if_neg]
    rintro ⟨h0, -⟩
    exact div_ne_zero htQ hnQ h0
  have h2 : RelevanceCalculator.get_margin (n - t) n
      = .ok ((((n - t : ℤ) : ℚ) / (n : ℚ)) ^ (n - t)) := by
    simp only [RelevanceCalculator.get_margin, pydiv, pypow, if_neg hnQ]
    rw [if_neg]
    rintro ⟨-, hlt⟩
    omega
  have h3 : pydiv ((t : ℤ) : ℚ) ((n : ℤ) : ℚ) = .ok ((t : ℚ) / (n : ℚ)) := by
    simp [pydiv, hnQ]
  have h4 : pydiv ((b : ℤ) : ℚ) ((n : ℤ) : ℚ) = .ok ((b : ℚ) / (n : ℚ)) := by
    simp [pydiv, hnQ]
  have h5 : pycomb n t = .error .valueError := by
    simp [pycomb, if_pos (Or.inr ht')]
  simp only [RelevanceCalculator.call, h1, h2, h3, h4, h5]

theorem call_target_gt_total (c : RelevanceCalculator) (hn : 0 < c.total_length)
    (ht : c.total_length < c.target_count) :
    RelevanceCalculator.call c = .error .valueError := by
  obtain ⟨t, b, n, imp⟩ := c
  have ht' : n < t := ht
  have hn' : 0 < n := hn
  have ht0 : (0 : ℤ) < t := hn'.trans ht'
  have hnQ : ((n : ℤ) : ℚ) ≠ 0 := Int.cast_ne_zero.mpr hn'.ne'
  have h1 : RelevanceCalculator.get_margin t n = .ok (((t : ℚ) / (n : ℚ)) ^ t) := by
    simp only [RelevanceCalculator.get_margin, pydiv, pypow, if_neg hnQ]
    rw [if_neg]
    rintro ⟨-, hlt⟩
    omega
  have h2 : RelevanceCalculator.get_margin (n - t) n
      = .ok ((((n - t : ℤ) : ℚ) / (n : ℚ)) ^ (n - t)) := by
    simp only [RelevanceCalculator.get_margin, pydiv, pypow, if_neg hnQ]
    rw [if_neg]
    rintro ⟨h0, -⟩
    have hnt : ((n - t : ℤ) : ℚ) ≠ 0 := Int.cast_ne_zero.mpr (by omega)
    exact div_ne_zero hnt hnQ h0
  have h3 : pydiv ((t : ℤ) : ℚ) ((n : ℤ) : ℚ) = .ok ((t : ℚ) / (n : ℚ)) := by
    simp [pydiv, hnQ]
  have h4 : pydiv ((b : ℤ) : ℚ) ((n : ℤ) : ℚ) = .ok ((b : ℚ) / (n : ℚ)) := by
    simp [pydiv, hnQ]
  have h5 : pycomb n t = .ok (Nat.choose n.toNat t.toNat) := by
    simp [pycomb, not_lt.mpr hn'.le, not_lt.mpr ht0.le]
  have hnQ' : (0 : ℚ) < (n : ℚ) := by exact_mod_cast hn'
  have htQ' : (0 : ℚ) < (t : ℚ) := by exact_mod_cast ht0
  have hdiv : 1 < (t : ℚ) / (n : ℚ) := (one_lt_div hnQ').mpr (by exact_mod_cast ht')
  have hvar : ((t : ℤ) : ℚ) * ((t : ℚ) / (n : ℚ)) * (1 - (t : ℚ) / (n : ℚ)) < 0 := by
    refine mul_neg_of_pos_of_neg (mul_pos htQ' ?_) (by linarith)
    linarith
  simp only [RelevanceCalculator.call, h1, h2, h3, h4, h5, if_pos hvar]

/-- Claim C10.  With `total_length > 0`, the probabilistic model is still
undefined at the boundary: `target_count = 0` and
`target_count = total_length` both make the variance zero, so the skewness
computation divides by a zero standard deviation and `__call__` raises
`ZeroDivisionError`; a `Wordscore` is produced only when
`0 < target_count < total_length`. -/
theorem call_requires_interior_target (c : RelevanceCalculator)
    (hn : 0 < c.total_length) :
    ((c.target_count = 0 ∨ c.target_count = c.total_length) →
      RelevanceCalculator.call c = .error .zeroDivisionError)
    ∧ ∀ r, RelevanceCalculator.call c = .ok r →
        0 < c.target_count ∧ c.target_count < c.total_length := by
  constructor
  · rintro (ht | ht)
    · exact call_target_zero c hn ht
    · exact call_target_eq_total c hn ht
  · intro r hr
    by_contra hcon
    rw [not_and_or, not_lt, not_lt] at hcon
    rcases hcon with hle | hge
    · rcases lt_or_eq_of_le hle with hlt | heq
      · rw [call_target_neg c hn hlt] at hr
        exact Except.noConfusion hr
      · rw [call_target_zero c hn heq] at hr
        exact Except.noConfusion hr
    · rcases lt_or_eq_of_le hge with hlt | heq
      · rw [call_target_gt_total c hn hlt] at hr
        exact Except.noConfusion hr
      · rw [call_target_eq_total c hn heq.symm] at hr
        exact Except.noConfusion hr

/-- Witness for C10: a calculator with 3 words and no target hits satisfies
the stated precondition `total_length > 0` and still fails with
`ZeroDivisionError`. -/
theorem call_requires_interior_target_witness :
    (0 : ℤ) < 3 ∧ RelevanceCalculator.call ⟨0, 0, 3, none⟩ = .error .zeroDivisionError :=
  ⟨by decide, (call_requires_interior_target ⟨0, 0, 3, none⟩ (by decide)).1 (Or.inl rfl)⟩
